import Mathlib

/-!
# Verification of the automated-ml notebook

Shallow embedding of the locally executed logic of
src/automated-ml/automated-ml.ipynb: the fixed train/test split, the
AutoMLConfig construction, the linear sequence of SDK calls, the
test_model function computing four classification metrics, and the
final print loops.  Cell values are modelled as rationals; the four
sklearn metric functions and the fitted model prediction are library
code outside this repository and enter as abstract (possibly failing)
functions; pandas column selection and drop are modelled with their
KeyError behaviour as Option results.
-/

/-- Numeric cell values of the dataframe (exact rationals stand in for
the numeric values of the heart-disease CSV). -/
abbrev Value := Rat

/-- A pandas DataFrame: named columns, and rows given as lists of cells
aligned with the column list.  Column names of the dataset are taken
distinct, so first-occurrence lookup agrees with pandas. -/
structure DataFrame where
  cols : List String
  rows : List (List Value)
deriving Repr, DecidableEq

/-- Index of a column name in a column list (first occurrence), none if
the name is absent - the KeyError case of pandas. -/
def colIndex : List String → String → Option Nat
  | [], _ => none
  | a :: l, c => if a = c then some 0 else (colIndex l c).map (· + 1)

/-- Column selection test_ds[c]: the values of column c in row order;
none models the KeyError raised when c is not a column. -/
def DataFrame.getCol (df : DataFrame) (c : String) : Option (List Value) :=
  (colIndex df.cols c).map fun i => df.rows.map fun r => r.getD i 0

/-- test_ds.drop([c], axis=1): a NEW frame without column c (pandas
default inplace=False); none models the KeyError when c is absent. -/
def DataFrame.dropCol (df : DataFrame) (c : String) : Option DataFrame :=
  (colIndex df.cols c).map fun i =>
    ⟨df.cols.eraseIdx i, df.rows.map fun r => r.eraseIdx i⟩

/-- The four sklearn metric functions imported by the notebook.  Their
numerical content is library code outside this repository; they are
kept abstract, each mapping the true labels and the predictions to a
score, with none modelling a raised exception (for example
roc_auc_score on a single-class label vector). -/
structure MetricFns where
  roc_auc_score : List Value → List Value → Option Value
  accuracy_score : List Value → List Value → Option Value
  recall_score : List Value → List Value → Option Value
  f1_score : List Value → List Value → Option Value

/-- The fitted model returned by the AutoML run: prediction on a
feature frame, abstract, with none modelling a raised exception. -/
structure Model where
  predict : DataFrame → Option (List Value)

/-- test_model from the notebook:
y = test_ds[target]; X = test_ds.drop([target], axis=1);
y_pred = fitted_model.predict(X); return the dict of the four metrics.
There is no try/except, so a failure of any call propagates (none). -/
def test_model (m : MetricFns) (fitted_model : Model) (test_ds : DataFrame) :
    Option (List (String × Value)) :=
  (test_ds.getCol "target").bind fun y =>
  (test_ds.dropCol "target").bind fun X =>
  (fitted_model.predict X).bind fun y_pred =>
  (m.roc_auc_score y y_pred).bind fun auc =>
  (m.accuracy_score y y_pred).bind fun acc =>
  (m.recall_score y y_pred).bind fun rcl =>
  (m.f1_score y y_pred).map fun f1v =>
  [("AUC", auc), ("Accuracy", acc), ("Recall", rcl), ("F1", f1v)]

/-- Notebook constant SPLIT_SEED = 42. -/
def SPLIT_SEED : Nat := 42

/-- Notebook constant SPLIT_PERCENTAGE = 0.7, passed as test_size. -/
def SPLIT_PERCENTAGE : Rat := 7 / 10

/-- Notebook constant DATASET_PATH. -/
def DATASET_PATH : String := "../../dataset/uci_dataset.csv"

/-- sklearn.model_selection.train_test_split with a float test_size and
an integer random_state: the rows are permuted by a PRNG keyed on the
seed, the first ceil(test_size * n) permuted rows form the test set and
the remaining rows the train set, returned in the order (train, test).
The PRNG permutation is library code outside this repository and enters
as the shuffle argument, a fixed function of the seed assumed (where
needed) to permute its input. -/
def train_test_split (shuffle : Nat → List (List Value) → List (List Value))
    (df : DataFrame) (test_size : Rat) (random_state : Nat) :
    DataFrame × DataFrame :=
  let permuted := shuffle random_state df.rows
  let n_test := Nat.ceil (test_size * (df.rows.length : Rat))
  (⟨df.cols, permuted.drop n_test⟩, ⟨df.cols, permuted.take n_test⟩)

/-- train_test_split with the optional random_state of sklearn: when
random_state is None the seed comes from ambient entropy (the global
RNG state of the run), so two runs may differ; the notebook passes
SPLIT_SEED. -/
def train_test_split_rs (shuffle : Nat → List (List Value) → List (List Value))
    (entropy : Nat) (random_state : Option Nat) (df : DataFrame)
    (test_size : Rat) : DataFrame × DataFrame :=
  train_test_split shuffle df test_size (random_state.getD entropy)

/-- The split cell of the notebook:
train_ds, test_ds = train_test_split(df, test_size=SPLIT_PERCENTAGE,
random_state=SPLIT_SEED).  Parametrised by the ambient entropy of the
run (unused, since a fixed random_state is passed) and by the CSV
content df. -/
def program_split (shuffle : Nat → List (List Value) → List (List Value))
    (entropy : Nat) (df : DataFrame) : DataFrame × DataFrame :=
  train_test_split_rs shuffle entropy (some SPLIT_SEED) df SPLIT_PERCENTAGE

/-- train_ds of the notebook. -/
def program_train_ds (shuffle : Nat → List (List Value) → List (List Value))
    (entropy : Nat) (df : DataFrame) : DataFrame :=
  (program_split shuffle entropy df).1

/-- test_ds of the notebook. -/
def program_test_ds (shuffle : Nat → List (List Value) → List (List Value))
    (entropy : Nat) (df : DataFrame) : DataFrame :=
  (program_split shuffle entropy df).2

/-- The AutoMLConfig object of the azureml SDK, restricted to the
keyword arguments the notebook passes. -/
structure AutoMLConfig where
  name : String
  task : String
  training_data : DataFrame
  validation_data : DataFrame
  label_column_name : String
  iterations : Nat
  primary_metric : String
  max_concurrent_iterations : Nat
  featurization : String
  model_explainability : Bool

/-- The configuration cell of the notebook: automl_config =
AutoMLConfig(name=..., task=classification, training_data=train_ds,
validation_data=test_ds, label_column_name=target, iterations=3,
primary_metric=AUC_weighted, max_concurrent_iterations=3,
featurization=auto, model_explainability=True). -/
def automl_config (shuffle : Nat → List (List Value) → List (List Value))
    (entropy : Nat) (df : DataFrame) : AutoMLConfig :=
  { name := "Automated ML Experiment"
    task := "classification"
    training_data := program_train_ds shuffle entropy df
    validation_data := program_test_ds shuffle entropy df
    label_column_name := "target"
    iterations := 3
    primary_metric := "AUC_weighted"
    max_concurrent_iterations := 3
    featurization := "auto"
    model_explainability := true }

/-- The cell: local_metrics = test_model(fitted_model, test_ds). -/
def program_local_metrics (m : MetricFns) (fitted_model : Model)
    (shuffle : Nat → List (List Value) → List (List Value))
    (entropy : Nat) (df : DataFrame) : Option (List (String × Value)) :=
  test_model m fitted_model (program_test_ds shuffle entropy df)

/-- The externally visible steps of the notebook, in program order.
The notebook is one linear script, so its behaviour as a sequence of
SDK calls is a fixed trace. -/
inductive Event
  | workspaceFromConfig
  | readCsv
  | trainTestSplit
  | mkAutoMLConfig
  | mkExperiment
  | submit
  | waitForCompletion
  | showRunDetails
  | getOutput
  | getMetrics
  | callTestModel
  | printMetrics
deriving Repr, DecidableEq

/-- The trace of the notebook cells executed top to bottom. -/
def notebook_trace : List Event :=
  [Event.workspaceFromConfig, Event.readCsv, Event.trainTestSplit,
   Event.mkAutoMLConfig, Event.mkExperiment, Event.submit,
   Event.waitForCompletion, Event.showRunDetails, Event.getOutput,
   Event.getMetrics, Event.callTestModel, Event.printMetrics]

/-- One printed metric line, the f-string of the notebook interpolating
the metric name and its value. -/
def metric_line (name : String) (v : Value) : String :=
  name ++ ": " ++ toString v

/-- The for loop over a metrics dict: one line per entry, in iteration
order.  A dict is modelled as an association list with distinct keys in
iteration order, so looking the key up yields the paired value. -/
def print_dict (d : List (String × Value)) : List String :=
  d.foldl (fun acc p => acc ++ [metric_line p.1 p.2]) []

/-- The lines printed by the final cell: the AutoML metrics header, one
line per best_run metric, a blank line then the local header (the
second header string starts with a newline escape), and one line per
local metric. -/
def printed_lines (best_run_metrics local_metrics : List (String × Value)) :
    List String :=
  "AutoML metrics" :: print_dict best_run_metrics
    ++ "" :: "Local test metrics" :: print_dict local_metrics

/-- pandas drop with its inplace flag, in state-passing form: the first
component is the result, the second the state of the receiver after
the call.  With inplace=False (the default, used by the notebook) a new
frame is returned and the receiver is unchanged; with inplace=True the
receiver itself is replaced. -/
def DataFrame.dropState (df : DataFrame) (c : String) (inplace : Bool) :
    (Option DataFrame) × DataFrame :=
  match df.dropCol c with
  | none => (none, df)
  | some d => (some d, if inplace then d else df)

/-- test_model in state-passing form over its test_ds argument: the
column read does not mutate, and the drop is the default
inplace=False, whose state output is threaded to the final state. -/
def test_model_state (m : MetricFns) (fitted_model : Model)
    (test_ds : DataFrame) : Option (List (String × Value)) × DataFrame :=
  let oy := test_ds.getCol "target"
  let dropped := test_ds.dropState "target" false
  (oy.bind fun y =>
   dropped.1.bind fun X =>
   (fitted_model.predict X).bind fun y_pred =>
   (m.roc_auc_score y y_pred).bind fun auc =>
   (m.accuracy_score y y_pred).bind fun acc =>
   (m.recall_score y y_pred).bind fun rcl =>
   (m.f1_score y y_pred).map fun f1v =>
   [("AUC", auc), ("Accuracy", acc), ("Recall", rcl), ("F1", f1v)],
   dropped.2)

/-- Concrete metric functions used to instantiate the abstract sklearn
metrics on sample inputs. -/
def constMetricFns : MetricFns :=
  ⟨fun _ _ => some 1, fun _ _ => some 1, fun _ _ => some 1, fun _ _ => some 1⟩

/-- Concrete fitted model predicting 1 for every row. -/
def constModel : Model := ⟨fun X => some (X.rows.map fun _ => 1)⟩

/-- Sample frame with an age column and a target column. -/
def sampleDF : DataFrame := ⟨["age", "target"], [[1, 0], [2, 1]]⟩

/-- Sample frame with five rows, on which ceil(0.7 * 5) = 4. -/
def df5 : DataFrame := ⟨["target"], [[0], [1], [2], [3], [4]]⟩

/-- Helper: a column name that occurs in the column list has an index. -/
theorem colIndex_isSome_of_mem {cols : List String} {c : String}
    (h : c ∈ cols) : (colIndex cols c).isSome := by
  induction cols with
  | nil => simp at h
  | cons a l ih =>
    rw [List.mem_cons] at h
    by_cases hac : a = c
    · simp [colIndex, hac]
    · have hcl : c ∈ l := by
        rcases h with h | h
        · exact absurd h.symm hac
        · exact h
      cases hE : colIndex l c with
      | none =>
        have hS := ih hcl
        rw [hE] at hS
        exact absurd hS (by simp)
      | some i => simp [colIndex, hac, hE]

/-- Helper: the accumulating print loop is the map of the line format
over the dict entries. -/
theorem foldl_metric_lines (l : List (String × Value)) (acc : List String) :
    l.foldl (fun a p => a ++ [metric_line p.1 p.2]) acc
      = acc ++ l.map fun p => metric_line p.1 p.2 := by
  induction l generalizing acc with
  | nil => simp
  | cons p t ih => simp [List.foldl_cons, ih]

/-- Helper: print_dict prints one line per entry in iteration order. -/
theorem print_dict_eq_map (d : List (String × Value)) :
    print_dict d = d.map fun p => metric_line p.1 p.2 := by
  simpa [print_dict] using foldl_metric_lines d []

/-- C1: for every fitted model and every dataframe test_ds with a
target column (and with every underlying library call succeeding),
test_model(fitted_model, test_ds) returns the mapping with exactly the
four keys AUC, Accuracy, Recall, F1, whose values are respectively
roc_auc_score, accuracy_score, recall_score, f1_score computed from the
target column of test_ds and the predictions of the model on the
remaining columns. -/
theorem test_model_four_metrics (m : MetricFns) (fm : Model)
    (ds : DataFrame) (y : List Value) (X : DataFrame) (y_pred : List Value)
    (auc acc rcl f1v : Value)
    (hy : ds.getCol "target" = some y)
    (hX : ds.dropCol "target" = some X)
    (hp : fm.predict X = some y_pred)
    (ha : m.roc_auc_score y y_pred = some auc)
    (hb : m.accuracy_score y y_pred = some acc)
    (hc : m.recall_score y y_pred = some rcl)
    (hd : m.f1_score y y_pred = some f1v) :
    test_model m fm ds =
      some [("AUC", auc), ("Accuracy", acc), ("Recall", rcl), ("F1", f1v)] ∧
    ∀ l, test_model m fm ds = some l →
      l.map Prod.fst = ["AUC", "Accuracy", "Recall", "F1"] := by
  have hres : test_model m fm ds =
      some [("AUC", auc), ("Accuracy", acc), ("Recall", rcl), ("F1", f1v)] := by
    simp [test_model, hy, hX, hp, ha, hb, hc, hd]
  refine ⟨hres, fun l hl => ?_⟩
  rw [hres] at hl
  cases hl
  rfl

/-- Witness for C1 at a concrete model, metric functions and frame. -/
theorem test_model_four_metrics_witness :
    test_model constMetricFns constModel sampleDF =
      some [("AUC", 1), ("Accuracy", 1), ("Recall", 1), ("F1", 1)] ∧
    ∀ l, test_model constMetricFns constModel sampleDF = some l →
      l.map Prod.fst = ["AUC", "Accuracy", "Recall", "F1"] :=
  test_model_four_metrics constMetricFns constModel sampleDF
    [0, 1] ⟨["age"], [[1], [2]]⟩ [1, 1] 1 1 1 1
    rfl rfl rfl rfl rfl rfl rfl

/-- C2, counterexample: on a five-row frame the test set has
ceil(0.7 * 5) = 4 rows, which is not a 0.7 fraction of the rows. -/
theorem train_test_split_frac_counterexample :
    ¬ ((((train_test_split (fun _ r => r) df5 SPLIT_PERCENTAGE
          SPLIT_SEED).2.rows.length : Nat) : Rat)
        = SPLIT_PERCENTAGE * ((df5.rows.length : Nat) : Rat)) := by
  have hc : Nat.ceil (SPLIT_PERCENTAGE * (5 : Rat)) = 4 := by
    have h1 : SPLIT_PERCENTAGE * (5 : Rat) = 7 / 2 := by
      norm_num [SPLIT_PERCENTAGE]
    rw [h1, Nat.ceil_eq_iff] <;> norm_num
  have hlen : (train_test_split (fun _ r => r) df5 SPLIT_PERCENTAGE
      SPLIT_SEED).2.rows.length = 4 := by
    simp [train_test_split, df5, hc]
  rw [hlen]
  norm_num [SPLIT_PERCENTAGE, df5]

/-- C2, amended: whenever the seed-keyed shuffle permutes the rows,
train_test_split(df, test_size=0.7, random_state=42) partitions the
rows of df (train rows and test rows together are a permutation of the
rows of df, each row occurrence on exactly one side); the test set
receives ceil(0.7 * n) rows and the train set the remaining
n - ceil(0.7 * n) rows. -/
theorem train_test_split_partition
    (shuffle : Nat → List (List Value) → List (List Value)) (df : DataFrame)
    (hperm : (shuffle SPLIT_SEED df.rows).Perm df.rows) :
    ((train_test_split shuffle df SPLIT_PERCENTAGE SPLIT_SEED).1.rows ++
        (train_test_split shuffle df SPLIT_PERCENTAGE SPLIT_SEED).2.rows).Perm
      df.rows ∧
    (train_test_split shuffle df SPLIT_PERCENTAGE SPLIT_SEED).2.rows.length
      = Nat.ceil (SPLIT_PERCENTAGE * (df.rows.length : Rat)) ∧
    (train_test_split shuffle df SPLIT_PERCENTAGE SPLIT_SEED).1.rows.length
      = df.rows.length - Nat.ceil (SPLIT_PERCENTAGE * (df.rows.length : Rat)) := by
  have h1 : (train_test_split shuffle df SPLIT_PERCENTAGE SPLIT_SEED).1.rows
      = (shuffle SPLIT_SEED df.rows).drop
          (Nat.ceil (SPLIT_PERCENTAGE * (df.rows.length : Rat))) := rfl
  have h2 : (train_test_split shuffle df SPLIT_PERCENTAGE SPLIT_SEED).2.rows
      = (shuffle SPLIT_SEED df.rows).take
          (Nat.ceil (SPLIT_PERCENTAGE * (df.rows.length : Rat))) := rfl
  have hk : Nat.ceil (SPLIT_PERCENTAGE * (df.rows.length : Rat))
      ≤ df.rows.length := by
    rw [Nat.ceil_le]
    have h0 : (0 : Rat) ≤ (df.rows.length : Rat) := by positivity
    calc SPLIT_PERCENTAGE * (df.rows.length : Rat)
        ≤ 1 * (df.rows.length : Rat) := by
          apply mul_le_mul_of_nonneg_right _ h0
          norm_num [SPLIT_PERCENTAGE]
      _ = (df.rows.length : Rat) := one_mul _
  refine ⟨?_, ?_, ?_⟩
  · rw [h1, h2]
    have hsplit : (shuffle SPLIT_SEED df.rows).take
          (Nat.ceil (SPLIT_PERCENTAGE * (df.rows.length : Rat))) ++
        (shuffle SPLIT_SEED df.rows).drop
          (Nat.ceil (SPLIT_PERCENTAGE * (df.rows.length : Rat)))
        = shuffle SPLIT_SEED df.rows := List.take_append_drop _ _
    have h3 : ((shuffle SPLIT_SEED df.rows).take
          (Nat.ceil (SPLIT_PERCENTAGE * (df.rows.length : Rat))) ++
        (shuffle SPLIT_SEED df.rows).drop
          (Nat.ceil (SPLIT_PERCENTAGE * (df.rows.length : Rat)))).Perm df.rows := by
      rw [hsplit]
      exact hperm
    exact List.Perm.trans List.perm_append_comm h3
  · rw [h2, List.length_take, hperm.length_eq]
    exact min_eq_left hk
  · rw [h1, List.length_drop, hperm.length_eq]

/-- Witness for the amended C2 at the identity shuffle on a five-row
frame. -/
theorem train_test_split_partition_witness :
    ((train_test_split (fun _ r => r) df5 SPLIT_PERCENTAGE SPLIT_SEED).1.rows ++
        (train_test_split (fun _ r => r) df5 SPLIT_PERCENTAGE
          SPLIT_SEED).2.rows).Perm df5.rows ∧
    (train_test_split (fun _ r => r) df5 SPLIT_PERCENTAGE
        SPLIT_SEED).2.rows.length
      = Nat.ceil (SPLIT_PERCENTAGE * (df5.rows.length : Rat)) ∧
    (train_test_split (fun _ r => r) df5 SPLIT_PERCENTAGE
        SPLIT_SEED).1.rows.length
      = df5.rows.length - Nat.ceil (SPLIT_PERCENTAGE * (df5.rows.length : Rat)) :=
  train_test_split_partition (fun _ r => r) df5 (List.Perm.refl _)

/-- C3: with random_state fixed to SPLIT_SEED = 42, the split does not
depend on the ambient entropy of the run: two runs of the program on
the same input frame produce identical train and test sets, both equal
to the split at seed 42. -/
theorem program_split_deterministic
    (shuffle : Nat → List (List Value) → List (List Value))
    (entropy1 entropy2 : Nat) (df : DataFrame) :
    program_split shuffle entropy1 df = program_split shuffle entropy2 df ∧
    program_split shuffle entropy1 df
      = train_test_split shuffle df SPLIT_PERCENTAGE SPLIT_SEED :=
  ⟨rfl, rfl⟩

/-- C4: the configuration object is built with task classification,
iterations 3, max_concurrent_iterations 3, primary_metric AUC_weighted,
label_column_name target, train_ds as training_data and test_ds as
validation_data. -/
theorem automl_config_fields
    (shuffle : Nat → List (List Value) → List (List Value))
    (entropy : Nat) (df : DataFrame) :
    (automl_config shuffle entropy df).task = "classification" ∧
    (automl_config shuffle entropy df).iterations = 3 ∧
    (automl_config shuffle entropy df).max_concurrent_iterations = 3 ∧
    (automl_config shuffle entropy df).primary_metric = "AUC_weighted" ∧
    (automl_config shuffle entropy df).label_column_name = "target" ∧
    (automl_config shuffle entropy df).training_data
      = program_train_ds shuffle entropy df ∧
    (automl_config shuffle entropy df).validation_data
      = program_test_ds shuffle entropy df :=
  ⟨rfl, rfl, rfl, rfl, rfl, rfl, rfl⟩

/-- C5: in the trace of the notebook, wait_for_completion on the
submitted run occurs, get_output occurs, and wait_for_completion comes
strictly before get_output (and after submit), so the fitted model is
only retrieved after blocking on completion. -/
theorem wait_before_get_output :
    Event.waitForCompletion ∈ notebook_trace ∧
    Event.getOutput ∈ notebook_trace ∧
    notebook_trace.indexOf Event.submit
      < notebook_trace.indexOf Event.waitForCompletion ∧
    notebook_trace.indexOf Event.waitForCompletion
      < notebook_trace.indexOf Event.getOutput := by
  decide

/-- C6: the final cell prints every metric name/value pair of the best
run metrics dict, followed by every name/value pair of the local
metrics dict, each in the iteration order of its dict, with the two
header lines in between. -/
theorem printed_lines_in_order (brm lm : List (String × Value)) :
    printed_lines brm lm =
      "AutoML metrics" :: (brm.map fun p => metric_line p.1 p.2)
        ++ "" :: "Local test metrics" :: (lm.map fun p => metric_line p.1 p.2) := by
  simp [printed_lines, print_dict_eq_map]

/-- C7: test_model has no failure handling: it fails exactly when one
of the underlying library calls fails - the target column selection,
the drop, the model prediction, or one of the four metric computations. -/
theorem test_model_none_iff (m : MetricFns) (fm : Model) (ds : DataFrame) :
    test_model m fm ds = none ↔
      ds.getCol "target" = none ∨ ds.dropCol "target" = none ∨
      ∃ y X, ds.getCol "target" = some y ∧ ds.dropCol "target" = some X ∧
        (fm.predict X = none ∨
         ∃ y_pred, fm.predict X = some y_pred ∧
           (m.roc_auc_score y y_pred = none ∨
            m.accuracy_score y y_pred = none ∨
            m.recall_score y y_pred = none ∨
            m.f1_score y y_pred = none)) := by
  cases hy : ds.getCol "target" with
  | none => simp [test_model, hy]
  | some y =>
    cases hX : ds.dropCol "target" with
    | none => simp [test_model, hy, hX]
    | some X =>
      cases hp : fm.predict X with
      | none => simp [test_model, hy, hX, hp]
      | some y_pred =>
        cases ha : m.roc_auc_score y y_pred with
        | none => simp [test_model, hy, hX, hp, ha]
        | some auc =>
          cases hb : m.accuracy_score y y_pred with
          | none => simp [test_model, hy, hX, hp, ha, hb]
          | some acc =>
            cases hc : m.recall_score y y_pred with
            | none => simp [test_model, hy, hX, hp, ha, hb, hc]
            | some rcl =>
              cases hd : m.f1_score y y_pred with
              | none => simp [test_model, hy, hX, hp, ha, hb, hc, hd]
              | some f1v => simp [test_model, hy, hX, hp, ha, hb, hc, hd]

/-- C8: test_model does not modify its test_ds argument: in the
state-passing form the frame after the call has the same columns and
the same rows as before, and the returned value is that of test_model
(the column selection and the inplace=False drop build new objects). -/
theorem test_model_frame (m : MetricFns) (fm : Model) (ds : DataFrame) :
    (test_model_state m fm ds).2.cols = ds.cols ∧
    (test_model_state m fm ds).2.rows = ds.rows ∧
    (test_model_state m fm ds).1 = test_model m fm ds := by
  cases h : ds.dropCol "target" with
  | none => simp [test_model_state, DataFrame.dropState, test_model, h]
  | some d => simp [test_model_state, DataFrame.dropState, test_model, h]

/-- C9: test_model is well-defined exactly under the precondition that
test_ds has a target column: under it the column selection and the drop
at the label column name of the configuration both succeed, and that
label column name is the very string target hard-coded in test_model. -/
theorem test_model_target_precondition
    (shuffle : Nat → List (List Value) → List (List Value))
    (entropy : Nat) (dfin ds : DataFrame)
    (h : "target" ∈ ds.cols) :
    (ds.getCol (automl_config shuffle entropy dfin).label_column_name).isSome ∧
    (ds.dropCol (automl_config shuffle entropy dfin).label_column_name).isSome ∧
    (automl_config shuffle entropy dfin).label_column_name = "target" := by
  have hl : (automl_config shuffle entropy dfin).label_column_name = "target" :=
    rfl
  rw [hl]
  have hs := colIndex_isSome_of_mem h
  cases hE : colIndex ds.cols "target" with
  | none =>
    rw [hE] at hs
    exact absurd hs (by simp)
  | some i =>
    refine ⟨?_, ?_, rfl⟩ <;> simp [DataFrame.getCol, DataFrame.dropCol, hE]

/-- Witness for C9 at a concrete frame holding a target column. -/
theorem test_model_target_precondition_witness :
    (sampleDF.getCol
        (automl_config (fun _ r => r) 0 sampleDF).label_column_name).isSome ∧
    (sampleDF.dropCol
        (automl_config (fun _ r => r) 0 sampleDF).label_column_name).isSome ∧
    (automl_config (fun _ r => r) 0 sampleDF).label_column_name = "target" :=
  test_model_target_precondition (fun _ r => r) 0 sampleDF sampleDF (by decide)

/-- C10: the frame the program passes to test_model to produce
local_metrics is exactly the validation_data of the configuration, the
test_ds of the split, so the local metrics are computed on the
model-selection split, not on held-out data. -/
theorem local_metrics_on_validation_data (m : MetricFns) (fm : Model)
    (shuffle : Nat → List (List Value) → List (List Value))
    (entropy : Nat) (df : DataFrame) :
    program_local_metrics m fm shuffle entropy df
      = test_model m fm (automl_config shuffle entropy df).validation_data ∧
    (automl_config shuffle entropy df).validation_data
      = program_test_ds shuffle entropy df :=
  ⟨rfl, rfl⟩
